import Mathlib

/-!
Shallow embedding of the ws-server collaboration WebSocket server
(src/server.ts and src/services/permissions.ts).

The CollaborationWebSocketServer keeps two in-memory maps, a clients map
from connection id to ConnectedClient and a documentRooms map from
document id to a set of connection ids.  Handlers are modelled as pure
functions from an environment (database rows, socket open states,
session-store results), the current server state, the sender connection
id and the inbound message, to a new state plus a trace of sent messages
and of session-store operations.  JavaScript Maps become association
lists, Sets become duplicate-free lists in insertion order, and string
truthiness (empty string is falsy) is modelled explicitly.
-/

namespace WsServer

/-- Check whether the list s starts with the list pat. -/
def takeEq (pat s : List Char) : Bool :=
  decide (s.take pat.length = pat)

/-- Check whether pat occurs as a contiguous run inside s. -/
def inflAux : List Char → List Char → Bool
  | pat, [] => decide (pat = [])
  | pat, c :: rest => takeEq pat (c :: rest) || inflAux pat (rest)

/-- JavaScript String.prototype.includes: substring containment. -/
def strIncludes (s pat : String) : Bool :=
  inflAux pat.data s.data

/-- The string s starts with pat. -/
def strStarts (s pat : String) : Bool :=
  takeEq pat.data s.data

/-- The string s ends with pat. -/
def strEnds (s pat : String) : Bool :=
  takeEq pat.data.reverse s.data.reverse

/-- JavaScript truthiness of an optional string field: present and nonempty. -/
def optTruthy : Option String → Bool
  | some s => decide (s ≠ "")
  | none => false

/-- JavaScript (o || dflt) for an optional string field. -/
def truthyOr (o : Option String) (dflt : String) : String :=
  match o with
  | some s => if s = "" then dflt else s
  | none => dflt

/-- Permission levels of the permission service. -/
inductive PermLevel
  | owner
  | editor
  | viewer
deriving DecidableEq, Repr

/-- The numeric permission hierarchy from checkDocumentPermission. -/
def permissionHierarchy : PermLevel → Nat
  | .owner => 3
  | .editor => 2
  | .viewer => 1

/-- Result shape of PermissionService.checkDocumentPermission. -/
structure UserPermission where
  hasAccess : Bool
  permission : PermLevel
  isOwner : Bool
deriving DecidableEq, Repr

/-- Result shape of PermissionService.validateGuestAccess. -/
structure GuestAccess where
  hasAccess : Bool
  permission : PermLevel
deriving DecidableEq, Repr

/-- Abstract view of the relational database rows consulted by the
permission service, plus the SKIP_DB_AUTH test-mode flag. -/
structure DB where
  skipDbAuth : Bool
  /-- documents row with id = documentId and user_id = userEmail exists. -/
  ownerRow : String → String → Bool
  /-- document_shares row for (documentId, sharedUserEmail), with its permission. -/
  shareRow : String → String → Option PermLevel
  /-- some documents row with user_id = userEmail exists. -/
  userHasDocs : String → Bool
  /-- document_shares row for documentId with null shared_user_email and
  allow_guest_access true; the inner option is the possibly null permission column. -/
  publicGuestShare : String → Option (Option PermLevel)
  /-- document_shares row for (documentId, shareToken) with allow_guest_access true. -/
  tokenGuestShare : String → String → Option (Option PermLevel)

/-- Guest detection used by server.ts authenticateClient and by the
permission service: the email contains the substrings guest_ and example.com
(with an at sign), via String.includes. -/
def isGuestEmail (e : String) : Bool :=
  strIncludes e "guest_" && strIncludes e "@example.com"

/-- The guest email pattern as the specification words it: starts with
guest_ and ends with the example.com domain. Modelled from the spec for
comparison with isGuestEmail. -/
def specGuestPattern (e : String) : Bool :=
  strStarts e "guest_" && strEnds e "@example.com"

/-- PermissionService.checkDocumentPermission. -/
def checkDocumentPermission (db : DB) (documentId userEmail : String)
    (requiredPermission : PermLevel) : UserPermission :=
  if db.skipDbAuth then
    { hasAccess := true, permission := requiredPermission, isOwner := true }
  else if isGuestEmail userEmail then
    { hasAccess := true, permission := .viewer, isOwner := false }
  else if db.ownerRow documentId userEmail then
    { hasAccess := true, permission := .owner, isOwner := true }
  else
    match db.shareRow documentId userEmail with
    | some userPermission =>
        { hasAccess := permissionHierarchy userPermission ≥ permissionHierarchy requiredPermission,
          permission := userPermission, isOwner := false }
    | none => { hasAccess := false, permission := .viewer, isOwner := false }

/-- PermissionService.validateUser. -/
def validateUser (db : DB) (userEmail : String) : Bool :=
  if db.skipDbAuth then true
  else if isGuestEmail userEmail then true
  else db.userHasDocs userEmail

/-- PermissionService.validateGuestAccess. -/
def validateGuestAccess (db : DB) (documentId shareToken : String) : GuestAccess :=
  if db.skipDbAuth then { hasAccess := true, permission := .viewer }
  else
    match db.publicGuestShare documentId with
    | some p => { hasAccess := true, permission := p.getD .viewer }
    | none =>
        if shareToken ≠ "" then
          match db.tokenGuestShare documentId shareToken with
          | some p => { hasAccess := true, permission := p.getD .viewer }
          | none => { hasAccess := false, permission := .viewer }
        else { hasAccess := false, permission := .viewer }

/-- Inbound message discriminator; unknown covers any other type string. -/
inductive MsgType
  | authenticate
  | joinDocument
  | leaveDocument
  | documentChange
  | characterChange
  | cursorUpdate
  | userPresence
  | unknown
deriving DecidableEq, Repr

/-- The dynamic data.operation payload: either a plain string (as the
character-change handler expects) or an object with a type field (as the
document-change handler inspects). -/
inductive OpVal
  | str (s : String)
  | obj (type : String) (content : Option String) (position : Option Int) (len : Option Int)
deriving DecidableEq, Repr

/-- The dynamic data payload of an inbound message. -/
structure MsgData where
  operation : Option OpVal := none
  cursor : Option String := none
  position : Option Int := none
  character : Option String := none
deriving DecidableEq, Repr

/-- Inbound WebSocketMessage envelope. -/
structure WebSocketMessage where
  type : MsgType
  documentId : Option String := none
  userId : Option String := none
  userEmail : Option String := none
  userName : Option String := none
  userImage : Option String := none
  shareToken : Option String := none
  data : Option MsgData := none
deriving DecidableEq, Repr

/-- ConnectedClient record stored in the clients map. -/
structure ConnectedClient where
  userId : String
  userEmail : String
  userName : String
  userImage : Option String
  documentId : String
  sessionId : Option String := none
  authenticated : Bool
deriving DecidableEq, Repr

/-- Entry of the current-users listing built by getDocumentClients. -/
structure RoomUser where
  clientId : String
  userEmail : String
  userName : String
  userImage : Option String
deriving DecidableEq, Repr

/-- The data field of an outbound cursor-update: message.data.cursor if
truthy, else the raw message.data, else undefined. -/
inductive CursorOut
  | cur (c : String)
  | dat (d : MsgData)
  | undef
deriving DecidableEq, Repr

/-- Outbound messages, timestamps omitted. -/
inductive OutMessage
  | connected
  | authenticated (userId userEmail userName userImage shareToken : Option String)
  | currentUsers (users : List RoomUser)
  | userJoined (userId userEmail userName userImage shareToken : Option String) (sessionId : String)
  | sessionCreated (sessionId : String)
  | userLeft (userId userEmail userName userImage : Option String)
  | documentChange (userId userEmail : Option String) (data : Option MsgData)
  | characterChange (userId userEmail : Option String) (data : Option MsgData)
  | cursorUpdate (userId userEmail userName userImage : Option String) (data : CursorOut)
  | userPresence (userId userEmail userName userImage : Option String) (data : Option MsgData)
  | error (err : String)
deriving DecidableEq, Repr

/-- Session-store calls issued by the server, in order. -/
inductive SessOp
  | create (documentId userId userEmail : String) (userName : Option String)
  | update (sessionId : String) (cursor : Option String)
  | remove (sessionId : String)
deriving DecidableEq, Repr

/-- In-memory state of CollaborationWebSocketServer: the clients map and
the documentRooms map, as association lists in insertion order. -/
structure ServerState where
  clients : List (String × ConnectedClient) := []
  documentRooms : List (String × List String) := []
deriving DecidableEq, Repr

/-- Environment: database contents, per-connection socket open state, and
the outcomes of session-store calls. -/
structure Env where
  db : DB
  sockOpen : String → Bool
  createSessionRes : String → String → String → Option String → Except Unit String
  updateSessionRes : String → Option String → Except Unit Unit
  removeSessionRes : String → Except Unit Unit

/-- Map.get on an association list. -/
def alGet {α : Type} : List (String × α) → String → Option α
  | [], _ => none
  | (k2, v) :: rest, k => if k2 = k then some v else alGet rest k

/-- Map.set on an association list (update in place, append if new). -/
def alSet {α : Type} : List (String × α) → String → α → List (String × α)
  | [], k, v => [(k, v)]
  | (k2, v2) :: rest, k, v =>
      if k2 = k then (k2, v) :: rest else (k2, v2) :: alSet rest k v

/-- Map.delete on an association list. -/
def alDel {α : Type} : List (String × α) → String → List (String × α)
  | [], _ => []
  | (k2, v) :: rest, k => if k2 = k then alDel rest k else (k2, v) :: alDel rest k

/-- Result of one handler invocation: the new state, the trace of
(recipient connection id, message) sends in order, the session-store
calls issued, and whether an exception escaped the handler (to be caught
by handleMessage). -/
structure HandlerOut where
  st : ServerState
  sent : List (String × OutMessage) := []
  ops : List SessOp := []
  threw : Bool := false
deriving DecidableEq, Repr

/-- sendToClient: deliver one message if the target socket is open. -/
def sendToClient (env : Env) (cid : String) (m : OutMessage) : List (String × OutMessage) :=
  if env.sockOpen cid then [(cid, m)] else []

/-- sendError: wrap an error string and deliver it via sendToClient. -/
def sendErrorTo (env : Env) (cid : String) (err : String) : List (String × OutMessage) :=
  sendToClient env cid (.error err)

/-- addToDocumentRoom from server.ts. -/
def addToDocumentRoom (st : ServerState) (documentId clientId : String) : ServerState :=
  match alGet st.documentRooms documentId with
  | none => { st with documentRooms := alSet st.documentRooms documentId [clientId] }
  | some room =>
      let newRoom := if clientId ∈ room then room else room ++ [clientId]
      { st with documentRooms := alSet st.documentRooms documentId newRoom }

/-- removeFromDocumentRoom from server.ts: delete the member and drop the
room entry entirely when it becomes empty. -/
def removeFromDocumentRoom (st : ServerState) (documentId clientId : String) : ServerState :=
  match alGet st.documentRooms documentId with
  | none => st
  | some room =>
      if (room.filter (fun c => decide (c ≠ clientId))).isEmpty then
        { st with documentRooms := alDel st.documentRooms documentId }
      else
        { st with documentRooms := alSet st.documentRooms documentId (room.filter (fun c => decide (c ≠ clientId))) }

/-- Members of a room, empty when the room entry is absent. -/
def roomMembers (st : ServerState) (documentId : String) : List String :=
  (alGet st.documentRooms documentId).getD []

/-- Inner loop of getDocumentClients: walk the room in insertion order,
skipping ids without a client record and duplicate emails. -/
def gdcAux (st : ServerState) : List String → List String → List RoomUser
  | [], _ => []
  | c :: rest, seen =>
      match alGet st.clients c with
      | some cl =>
          if cl.userEmail ∈ seen then gdcAux st rest seen
          else { clientId := c, userEmail := cl.userEmail, userName := cl.userName,
                 userImage := cl.userImage } :: gdcAux st rest (cl.userEmail :: seen)
      | none => gdcAux st rest seen

/-- getDocumentClients from server.ts. -/
def getDocumentClients (st : ServerState) (documentId : String) : List RoomUser :=
  match alGet st.documentRooms documentId with
  | none => []
  | some room => gdcAux st room []

/-- broadcastToDocument from server.ts: send to every room member that has
a client record, whose socket is open, and that is not the excluded
connection. -/
def broadcastToDocument (env : Env) (st : ServerState) (documentId : String)
    (m : OutMessage) (excludeWs : Option String) : List (String × OutMessage) :=
  match alGet st.documentRooms documentId with
  | none => []
  | some room =>
      room.filterMap (fun clientId =>
        match alGet st.clients clientId with
        | some _ =>
            if env.sockOpen clientId && decide (some clientId ≠ excludeWs) then
              some (clientId, m)
            else none
        | none => none)

/-- isClientAuthenticated from server.ts. -/
def isClientAuthenticated (st : ServerState) (cid : String) : Bool :=
  match alGet st.clients cid with
  | some c => c.authenticated
  | none => false

/-- Guard shared by join-document, document-change and character-change:
documentId, userEmail and userId must all be truthy. -/
def reqFields (msg : WebSocketMessage) : Option (String × String × String) :=
  match msg.documentId, msg.userEmail, msg.userId with
  | some d, some e, some u =>
      if d = "" || e = "" || u = "" then none else some (d, e, u)
  | _, _, _ => none

/-- authenticateClient from server.ts: returns whether authentication
succeeded together with the (possibly updated) state. -/
def authenticateClient (env : Env) (st : ServerState) (cid : String)
    (msg : WebSocketMessage) : Bool × ServerState :=
  if !(optTruthy msg.userEmail) || !(optTruthy msg.userId) then (false, st)
  else
    let e := truthyOr msg.userEmail ""
    let u := truthyOr msg.userId ""
    let stored : ConnectedClient :=
      { userId := u, userEmail := e, userName := truthyOr msg.userName "",
        userImage := msg.userImage, documentId := truthyOr msg.documentId "",
        sessionId := none, authenticated := true }
    if isGuestEmail e then
      if !(optTruthy msg.shareToken) || !(optTruthy msg.documentId) then (false, st)
      else
        let ga := validateGuestAccess env.db (truthyOr msg.documentId "") (truthyOr msg.shareToken "")
        if !ga.hasAccess then (false, st)
        else (true, { st with clients := alSet st.clients cid stored })
    else
      if !(validateUser env.db e) then (false, st)
      else (true, { st with clients := alSet st.clients cid stored })

/-- handleAuthentication from server.ts. -/
def handleAuthentication (env : Env) (st : ServerState) (cid : String)
    (msg : WebSocketMessage) : HandlerOut :=
  if !(optTruthy msg.userEmail) || !(optTruthy msg.userId) then
    { st := st, sent := sendErrorTo env cid "Missing user credentials" }
  else
    let r := authenticateClient env st cid msg
    if r.1 then
      { st := r.2,
        sent := [(cid, .authenticated msg.userId msg.userEmail msg.userName
                         msg.userImage msg.shareToken)] }
    else
      { st := r.2, sent := sendErrorTo env cid "Authentication failed" }

/-- handleJoinDocument from server.ts. -/
def handleJoinDocument (env : Env) (st : ServerState) (cid : String)
    (msg : WebSocketMessage) : HandlerOut :=
  match reqFields msg with
  | none => { st := st, sent := sendErrorTo env cid "Missing required fields" }
  | some (d, e, u) =>
      let permission := checkDocumentPermission env.db d e .viewer
      if !permission.hasAccess then
        { st := st, sent := sendErrorTo env cid "Access denied to document" }
      else
        match alGet st.clients cid with
        | none => { st := st, sent := sendErrorTo env cid "Client not found" }
        | some client =>
            let st1 := { st with clients := alSet st.clients cid { client with documentId := d } }
            let st2 := addToDocumentRoom st1 d cid
            let op := SessOp.create d u e msg.userName
            match env.createSessionRes d u e msg.userName with
            | .error _ =>
                { st := st2, sent := sendErrorTo env cid "Failed to join document", ops := [op] }
            | .ok sid =>
                let client2 := { client with documentId := d, sessionId := some sid }
                let st3 := { st2 with clients := alSet st2.clients cid client2 }
                let currentUsers := getDocumentClients st3 d
                let sent1 :=
                  if currentUsers.length > 1 then
                    sendToClient env cid
                      (.currentUsers (currentUsers.filter (fun user => decide (user.clientId ≠ cid))))
                  else []
                let joinedMsg := OutMessage.userJoined msg.userId msg.userEmail msg.userName
                  msg.userImage msg.shareToken sid
                let sent2 := sendToClient env cid joinedMsg
                let sent3 := broadcastToDocument env st3 d joinedMsg (some cid)
                let sent4 := sendToClient env cid (.sessionCreated sid)
                { st := st3, sent := sent1 ++ sent2 ++ sent3 ++ sent4, ops := [op] }

/-- handleLeaveDocument from server.ts.  The SessionService.removeSession
call is awaited without a local catch, so a session-store failure escapes
to handleMessage (threw := true) before any room mutation or broadcast. -/
def handleLeaveDocument (env : Env) (st : ServerState) (cid : String)
    (msg : WebSocketMessage) : HandlerOut :=
  let step : List SessOp × Bool :=
    match alGet st.clients cid with
    | some client =>
        match client.sessionId with
        | some s =>
            ([SessOp.remove s],
             match env.removeSessionRes s with
             | .error _ => true
             | .ok _ => false)
        | none => ([], false)
    | none => ([], false)
  if step.2 then { st := st, ops := step.1, threw := true }
  else if optTruthy msg.documentId then
    let d := truthyOr msg.documentId ""
    let st1 := removeFromDocumentRoom st d cid
    { st := st1, ops := step.1,
      sent := broadcastToDocument env st1 d
        (.userLeft msg.userId msg.userEmail msg.userName msg.userImage) none }
  else { st := st, ops := step.1 }

/-- data.operation.type equals the sync-request marker. -/
def isSyncRequest : Option MsgData → Bool
  | some dd =>
      match dd.operation with
      | some (.obj t _ _ _) => t = "sync-request"
      | _ => false
  | none => false

/-- data.operation.content of a sync request. -/
def syncContent : Option MsgData → Option String
  | some dd =>
      match dd.operation with
      | some (.obj _ c _ _) => c
      | _ => none
  | none => none

/-- handleDocumentChange from server.ts. -/
def handleDocumentChange (env : Env) (st : ServerState) (cid : String)
    (msg : WebSocketMessage) : HandlerOut :=
  match reqFields msg with
  | none => { st := st, sent := sendErrorTo env cid "Missing required fields" }
  | some (d, e, _) =>
      let permission := checkDocumentPermission env.db d e .editor
      if !permission.hasAccess then
        { st := st, sent := sendErrorTo env cid "No edit permission for document" }
      else if isSyncRequest msg.data then
        { st := st, sent := broadcastToDocument env st d
            (.documentChange msg.userId msg.userEmail
              (some { operation := some (.obj "sync-request" (syncContent msg.data) none none) }))
            (some cid) }
      else
        { st := st, sent := broadcastToDocument env st d
            (.documentChange msg.userId msg.userEmail msg.data) (some cid) }

/-- Validation of character-change data: position must be a number,
character a string, operation the string insert or delete. -/
def validCharData : Option MsgData → Bool
  | some dd =>
      (match dd.position with | some _ => true | none => false) &&
      (match dd.character with | some _ => true | none => false) &&
      (match dd.operation with
       | some (.str s) => s = "insert" || s = "delete"
       | _ => false)
  | none => false

/-- handleCharacterChange from server.ts. -/
def handleCharacterChange (env : Env) (st : ServerState) (cid : String)
    (msg : WebSocketMessage) : HandlerOut :=
  match reqFields msg with
  | none => { st := st, sent := sendErrorTo env cid "Missing required fields" }
  | some (d, e, _) =>
      let permission := checkDocumentPermission env.db d e .editor
      if !permission.hasAccess then
        { st := st, sent := sendErrorTo env cid "No edit permission for document" }
      else if !(validCharData msg.data) then
        { st := st, sent := sendErrorTo env cid "Invalid character change data" }
      else
        { st := st, sent := broadcastToDocument env st d
            (.characterChange msg.userId msg.userEmail msg.data) (some cid) }

/-- message.data.cursor as passed to updateSessionActivity. -/
def cursorOf (msg : WebSocketMessage) : Option String :=
  msg.data.bind (fun dd => dd.cursor)

/-- The nested cursor payload of the outbound cursor-update message:
message.data.cursor if truthy, else message.data. -/
def cursorOutOf : Option MsgData → CursorOut
  | none => .undef
  | some dd =>
      match dd.cursor with
      | some c => if c = "" then .dat dd else .cur c
      | none => .dat dd

/-- handleCursorUpdate from server.ts.  The updateSessionActivity call is
awaited without a local catch, so a session-store failure escapes to
handleMessage before the broadcast.  The broadcast passes no excluded
socket. -/
def handleCursorUpdate (env : Env) (st : ServerState) (cid : String)
    (msg : WebSocketMessage) : HandlerOut :=
  let step : List SessOp × Bool :=
    match alGet st.clients cid with
    | some client =>
        match client.sessionId with
        | some s =>
            ([SessOp.update s (cursorOf msg)],
             match env.updateSessionRes s (cursorOf msg) with
             | .error _ => true
             | .ok _ => false)
        | none => ([], false)
    | none => ([], false)
  if step.2 then { st := st, ops := step.1, threw := true }
  else if optTruthy msg.documentId then
    { st := st, ops := step.1,
      sent := broadcastToDocument env st (truthyOr msg.documentId "")
        (.cursorUpdate msg.userId msg.userEmail msg.userName msg.userImage
          (cursorOutOf msg.data)) none }
  else { st := st, ops := step.1 }

/-- handleUserPresence from server.ts; no excluded socket is passed. -/
def handleUserPresence (env : Env) (st : ServerState) (_cid : String)
    (msg : WebSocketMessage) : HandlerOut :=
  if optTruthy msg.documentId then
    { st := st,
      sent := broadcastToDocument env st (truthyOr msg.documentId "")
        (.userPresence msg.userId msg.userEmail msg.userName msg.userImage msg.data) none }
  else { st := st }

/-- handleClientDisconnect from server.ts.  The removeSession rejection is
swallowed with a catch, the client is removed from its current room and
from the clients map, then user-left is broadcast with the client record
fields. -/
def handleClientDisconnect (env : Env) (st : ServerState) (cid : String) : HandlerOut :=
  match alGet st.clients cid with
  | none => { st := st }
  | some client =>
      let ops :=
        match client.sessionId with
        | some s => [SessOp.remove s]
        | none => []
      let st1 := removeFromDocumentRoom st client.documentId cid
      let st2 := { st1 with clients := alDel st1.clients cid }
      { st := st2, ops := ops,
        sent := broadcastToDocument env st2 client.documentId
          (.userLeft (some client.userId) (some client.userEmail)
            (some client.userName) client.userImage) none }

/-- handleMessage from server.ts: authenticate is handled first, every
other type requires an authenticated client; an exception escaping a
handler is converted into one Internal server error message. -/
def handleMessage (env : Env) (st : ServerState) (cid : String)
    (msg : WebSocketMessage) : HandlerOut :=
  if msg.type = .authenticate then handleAuthentication env st cid msg
  else if !(isClientAuthenticated st cid) then
    { st := st,
      sent := sendErrorTo env cid "Authentication required. Please send authenticate message first." }
  else
    let r :=
      match msg.type with
      | .joinDocument => handleJoinDocument env st cid msg
      | .leaveDocument => handleLeaveDocument env st cid msg
      | .documentChange => handleDocumentChange env st cid msg
      | .characterChange => handleCharacterChange env st cid msg
      | .cursorUpdate => handleCursorUpdate env st cid msg
      | .userPresence => handleUserPresence env st cid msg
      | _ => { st := st, sent := sendErrorTo env cid "Unknown message type" }
    if r.threw then
      { st := r.st, sent := r.sent ++ sendErrorTo env cid "Internal server error", ops := r.ops }
    else r

/-! Concrete fixtures used by counterexamples and witnesses. -/

/-- A small database: document d1 is shared with viewer@x.com at viewer
level, reg@x.com owns some document, and share token tok1 grants guest
access to d1.  Test mode is off. -/
def db0 : DB :=
  { skipDbAuth := false,
    ownerRow := fun _ _ => false,
    shareRow := fun d e =>
      if d = "d1" && e = "viewer@x.com" then some .viewer
      else if d = "d1" && e = "reg@x.com" then some .editor
      else none,
    userHasDocs := fun e => e = "reg@x.com" || e = "viewer@x.com" || e = "bob@x.com",
    publicGuestShare := fun _ => none,
    tokenGuestShare := fun d t => if d = "d1" && t = "tok1" then some (some .viewer) else none }

/-- Environment in which every socket is open and every session-store call
succeeds. -/
def envOk : Env :=
  { db := db0, sockOpen := fun _ => true,
    createSessionRes := fun _ _ _ _ => .ok "s9",
    updateSessionRes := fun _ _ => .ok (),
    removeSessionRes := fun _ => .ok () }

/-- Like envOk but updateSessionActivity rejects. -/
def envSessFail : Env :=
  { envOk with updateSessionRes := fun _ _ => .error () }

/-- An authenticated guest client on document d1. -/
def guestClient : ConnectedClient :=
  { userId := "g1", userEmail := "guest_a@example.com", userName := "", userImage := none,
    documentId := "d1", sessionId := some "sg", authenticated := true }

/-- An authenticated registered client on document d1. -/
def alice : ConnectedClient :=
  { userId := "u1", userEmail := "reg@x.com", userName := "A", userImage := none,
    documentId := "d1", sessionId := some "s1", authenticated := true }

/-- A second authenticated registered client on document d1. -/
def bob : ConnectedClient :=
  { userId := "u2", userEmail := "bob@x.com", userName := "B", userImage := none,
    documentId := "d1", sessionId := some "s2", authenticated := true }

/-- A client whose only access to d1 is a viewer-level share. -/
def viewerClient : ConnectedClient :=
  { userId := "u3", userEmail := "viewer@x.com", userName := "V", userImage := none,
    documentId := "d1", sessionId := some "s3", authenticated := true }

/-- Alice (c1) and Bob (c2) both joined to room d1. -/
def stTwo : ServerState :=
  { clients := [("c1", alice), ("c2", bob)], documentRooms := [("d1", ["c1", "c2"])] }

/-- Guest (cg) and Bob (c2) both joined to room d1. -/
def stGuest : ServerState :=
  { clients := [("cg", guestClient), ("c2", bob)], documentRooms := [("d1", ["cg", "c2"])] }

/-- Viewer-only user (cv) and Bob (c2) both joined to room d1. -/
def stViewer : ServerState :=
  { clients := [("cv", viewerClient), ("c2", bob)], documentRooms := [("d1", ["cv", "c2"])] }

/-- A document-change message from the guest identity. -/
def guestChangeMsg : WebSocketMessage :=
  { type := .documentChange, documentId := some "d1", userId := some "g1",
    userEmail := some "guest_a@example.com",
    data := some { operation := some (.obj "insert" (some "hi") (some 0) none) } }

/-- A document-change message from the viewer-only identity. -/
def viewerChangeMsg : WebSocketMessage :=
  { type := .documentChange, documentId := some "d1", userId := some "u3",
    userEmail := some "viewer@x.com",
    data := some { operation := some (.obj "insert" (some "hi") (some 0) none) } }

/-- A cursor-update message from Alice on d1. -/
def cursorMsg : WebSocketMessage :=
  { type := .cursorUpdate, documentId := some "d1", userId := some "u1",
    userEmail := some "reg@x.com", userName := some "A",
    data := some { cursor := some "p7" } }

/-- A leave-document message from Alice on d1. -/
def leaveMsg : WebSocketMessage :=
  { type := .leaveDocument, documentId := some "d1", userId := some "u1",
    userEmail := some "reg@x.com", userName := some "A" }

/-- Alice authenticated but not yet joined to any room. -/
def aliceFresh : ConnectedClient :=
  { userId := "u1", userEmail := "reg@x.com", userName := "A", userImage := none,
    documentId := "", sessionId := none, authenticated := true }

/-- Bob already in room d1; Alice authenticated but roomless. -/
def stJoin : ServerState :=
  { clients := [("c2", bob), ("c1", aliceFresh)], documentRooms := [("d1", ["c2"])] }

/-- A join-document message from Alice for d1. -/
def joinMsg : WebSocketMessage :=
  { type := .joinDocument, documentId := some "d1", userId := some "u1",
    userEmail := some "reg@x.com", userName := some "A" }

/-- A re-authentication message from Alice naming document d2. -/
def reauthMsg : WebSocketMessage :=
  { type := .authenticate, documentId := some "d2", userId := some "u1",
    userEmail := some "reg@x.com", userName := some "A2" }

/-- An authenticate message whose email contains the guest markers without
matching the anchored guest pattern, and which carries no share token. -/
def evilAuthMsg : WebSocketMessage :=
  { type := .authenticate, userId := some "u9",
    userEmail := some "guest_x@example.com.attacker.org" }

/-- A server with no clients and no rooms. -/
def stEmpty : ServerState := {}

/-- Recognizer for session-created messages. -/
def isSessionCreatedMsg : OutMessage → Bool
  | .sessionCreated _ => true
  | _ => false

/-- True when some delivery to a connection other than cid is followed,
later in the trace, by a session-created delivered to cid: the order the
spec forbids for the join handshake. -/
def sessionCreatedAfterOther (cid : String) : List (String × OutMessage) → Bool
  | [] => false
  | (r, _) :: rest =>
      (decide (r ≠ cid) && rest.any (fun q => decide (q.1 = cid) && isSessionCreatedMsg q.2)) ||
      sessionCreatedAfterOther cid rest

/-- The user-left payload carried by leaveMsg. -/
def leftOfLeaveMsg : OutMessage :=
  .userLeft (some "u1") (some "reg@x.com") (some "A") none

theorem alGet_alSet_self {α : Type} (m : List (String × α)) (k : String) (v : α) :
    alGet (alSet m k v) k = some v := by
  induction m with
  | nil => simp [alGet, alSet]
  | cons p rest ih =>
      obtain ⟨k2, v2⟩ := p
      by_cases h : k2 = k
      · simp [alSet, alGet, h]
      · simp [alSet, alGet, h, ih]

theorem alGet_alSet_ne {α : Type} (m : List (String × α)) (k k2 : String) (v : α)
    (h : k2 ≠ k) : alGet (alSet m k v) k2 = alGet m k2 := by
  induction m with
  | nil => simp [alGet, alSet, Ne.symm h]
  | cons p rest ih =>
      obtain ⟨k3, v3⟩ := p
      by_cases h3 : k3 = k
      · subst h3
        simp [alSet, alGet, Ne.symm h]
      · by_cases h32 : k3 = k2
        · subst h32
          simp [alSet, alGet, h3]
        · simp [alSet, alGet, h3, h32, ih]

theorem alGet_alDel_self {α : Type} (m : List (String × α)) (k : String) :
    alGet (alDel m k) k = none := by
  induction m with
  | nil => simp [alGet, alDel]
  | cons p rest ih =>
      obtain ⟨k2, v2⟩ := p
      by_cases h : k2 = k
      · simpa [alDel, h] using ih
      · simpa [alDel, alGet, h] using ih

theorem alGet_alDel_ne {α : Type} (m : List (String × α)) (k k2 : String)
    (h : k2 ≠ k) : alGet (alDel m k) k2 = alGet m k2 := by
  induction m with
  | nil => simp [alGet, alDel]
  | cons p rest ih =>
      obtain ⟨k3, v3⟩ := p
      by_cases h3 : k3 = k
      · subst h3
        simpa [alDel, alGet, Ne.symm h] using ih
      · by_cases h32 : k3 = k2
        · subst h32
          simp [alDel, alGet, h3]
        · simpa [alDel, alGet, h3, h32] using ih

theorem truthyOr_some {s dflt : String} (h : s ≠ "") : truthyOr (some s) dflt = s := by
  simp [truthyOr, h]

/-- Everything in a broadcast carries the broadcast message, targets a
room member holding a client record whose socket is open, and is not the
excluded connection. -/
theorem mem_broadcast {env : Env} {st : ServerState} {d : String} {m : OutMessage}
    {excl : Option String} {r : String} {m2 : OutMessage}
    (hmem : (r, m2) ∈ broadcastToDocument env st d m excl) :
    m2 = m ∧ r ∈ roomMembers st d ∧ (alGet st.clients r).isSome ∧
      env.sockOpen r = true ∧ some r ≠ excl := by
  unfold broadcastToDocument at hmem
  cases hroom : alGet st.documentRooms d with
  | none => rw [hroom] at hmem; simp at hmem
  | some room =>
      rw [hroom] at hmem
      rw [List.mem_filterMap] at hmem
      obtain ⟨a, ha, hfa⟩ := hmem
      cases hc : alGet st.clients a with
      | none => rw [hc] at hfa; simp at hfa
      | some cl =>
          rw [hc] at hfa
          by_cases hcond : (env.sockOpen a && decide (some a ≠ excl)) = true
          · rw [if_pos hcond] at hfa
            have hp := Option.some.inj hfa
            have h1 : a = r := congrArg Prod.fst hp
            have h2 : m = m2 := congrArg Prod.snd hp
            subst h1
            rw [Bool.and_eq_true, decide_eq_true_iff] at hcond
            refine ⟨h2.symm, ?_, ?_, hcond.1, hcond.2⟩
            · simp [roomMembers, hroom, ha]
            · simp [hc]
          · rw [if_neg hcond] at hfa
            simp at hfa

/-- An open room member with a client record that is not excluded receives
the broadcast. -/
theorem broadcast_mem_of {env : Env} {st : ServerState} {d : String} {m : OutMessage}
    {excl : Option String} {c : String}
    (hc : c ∈ roomMembers st d) (hcl : (alGet st.clients c).isSome)
    (hopen : env.sockOpen c = true) (hex : some c ≠ excl) :
    (c, m) ∈ broadcastToDocument env st d m excl := by
  unfold broadcastToDocument
  cases hroom : alGet st.documentRooms d with
  | none => rw [roomMembers, hroom] at hc; simp at hc
  | some room =>
      rw [roomMembers, hroom] at hc
      simp only [Option.getD_some] at hc
      rw [List.mem_filterMap]
      refine ⟨c, hc, ?_⟩
      cases hrec : alGet st.clients c with
      | none => rw [hrec] at hcl; simp at hcl
      | some cl => simp [hrec, hopen, hex]

/-- The sender, passed as the excluded socket, never appears in the
broadcast trace. -/
theorem broadcast_not_excluded {env : Env} {st : ServerState} {d : String}
    {m m2 : OutMessage} {cid : String}
    (hmem : (cid, m2) ∈ broadcastToDocument env st d m (some cid)) : False := by
  have h := (mem_broadcast hmem).2.2.2.2
  exact h rfl

theorem mem_sendToClient {env : Env} {cid r : String} {m m2 : OutMessage}
    (h : (r, m2) ∈ sendToClient env cid m) : r = cid ∧ m2 = m := by
  unfold sendToClient at h
  by_cases ho : env.sockOpen cid = true
  · rw [if_pos ho] at h
    simp at h
    exact ⟨h.1, h.2⟩
  · rw [if_neg ho] at h
    simp at h

theorem removeFromDocumentRoom_clients (st : ServerState) (d c : String) :
    (removeFromDocumentRoom st d c).clients = st.clients := by
  unfold removeFromDocumentRoom
  cases alGet st.documentRooms d with
  | none => rfl
  | some room =>
      dsimp only
      by_cases h : (List.filter (fun x => decide (x ≠ c)) room).isEmpty = true
      · rw [if_pos h]
      · rw [if_neg h]

theorem addToDocumentRoom_clients (st : ServerState) (d c : String) :
    (addToDocumentRoom st d c).clients = st.clients := by
  unfold addToDocumentRoom
  cases alGet st.documentRooms d with
  | none => rfl
  | some room => rfl

theorem inflAux_of_takeEq (pat s : List Char) (h : takeEq pat s = true) :
    inflAux pat s = true := by
  cases s with
  | nil =>
      unfold takeEq at h
      rw [decide_eq_true_iff] at h
      unfold inflAux
      simp at h
      simp [h]
  | cons c rest =>
      unfold inflAux
      rw [h]
      rfl

theorem inflAux_suffix (t pat : List Char) : inflAux pat (t ++ pat) = true := by
  induction t with
  | nil =>
      rw [List.nil_append]
      apply inflAux_of_takeEq
      unfold takeEq
      simp
  | cons x t ih =>
      rw [List.cons_append]
      unfold inflAux
      rw [ih]
      simp

theorem includes_of_starts (s p : String) (h : strStarts s p = true) :
    strIncludes s p = true :=
  inflAux_of_takeEq p.data s.data h

theorem includes_of_ends (s p : String) (h : strEnds s p = true) :
    strIncludes s p = true := by
  unfold strEnds takeEq at h
  rw [decide_eq_true_iff] at h
  have h2 : s.data = (s.data.reverse.drop p.data.reverse.length).reverse ++ p.data := by
    calc s.data = s.data.reverse.reverse := (List.reverse_reverse _).symm
    _ = (s.data.reverse.take p.data.reverse.length
          ++ s.data.reverse.drop p.data.reverse.length).reverse := by
        rw [List.take_append_drop]
    _ = (s.data.reverse.drop p.data.reverse.length).reverse
          ++ (s.data.reverse.take p.data.reverse.length).reverse := by
        rw [List.reverse_append]
    _ = (s.data.reverse.drop p.data.reverse.length).reverse ++ p.data := by
        rw [h, List.reverse_reverse]
  unfold strIncludes
  rw [h2]
  exact inflAux_suffix _ _

/-- Well-formedness of the Room Directory: no entry has an empty member
set. -/
def roomsWF (rooms : List (String × List String)) : Prop :=
  ∀ d room, alGet rooms d = some room → room ≠ []

theorem roomsWF_addRoom {st : ServerState} {d c : String} (h : roomsWF st.documentRooms) :
    roomsWF (addToDocumentRoom st d c).documentRooms := by
  unfold addToDocumentRoom
  cases hr : alGet st.documentRooms d with
  | none =>
      dsimp only
      intro d2 room2 h2
      by_cases hd : d2 = d
      · subst hd
        rw [alGet_alSet_self] at h2
        injection h2 with h2
        subst h2
        simp
      · rw [alGet_alSet_ne _ _ _ _ hd] at h2
        exact h d2 room2 h2
  | some room =>
      dsimp only
      intro d2 room2 h2
      by_cases hd : d2 = d
      · subst hd
        rw [alGet_alSet_self] at h2
        injection h2 with h2
        subst h2
        by_cases hm : c ∈ room
        · simpa [hm] using h d2 room hr
        · simp [hm]
      · rw [alGet_alSet_ne _ _ _ _ hd] at h2
        exact h d2 room2 h2

theorem roomsWF_removeRoom {st : ServerState} {d c : String} (h : roomsWF st.documentRooms) :
    roomsWF (removeFromDocumentRoom st d c).documentRooms := by
  unfold removeFromDocumentRoom
  cases hr : alGet st.documentRooms d with
  | none => exact h
  | some room =>
      dsimp only
      by_cases he : (List.filter (fun x => decide (x ≠ c)) room).isEmpty = true
      · rw [if_pos he]
        intro d2 room2 h2
        by_cases hd : d2 = d
        · subst hd
          rw [alGet_alDel_self] at h2
          cases h2
        · rw [alGet_alDel_ne _ _ _ hd] at h2
          exact h d2 room2 h2
      · rw [if_neg he]
        intro d2 room2 h2
        by_cases hd : d2 = d
        · subst hd
          rw [alGet_alSet_self] at h2
          injection h2 with h2
          subst h2
          intro hnil
          exact he (by rw [hnil]; rfl)
        · rw [alGet_alSet_ne _ _ _ _ hd] at h2
          exact h d2 room2 h2

theorem handleDocumentChange_st (env : Env) (st : ServerState) (cid : String)
    (msg : WebSocketMessage) : (handleDocumentChange env st cid msg).st = st := by
  unfold handleDocumentChange
  repeat' (first | split | dsimp only)

theorem handleDocumentChange_threw (env : Env) (st : ServerState) (cid : String)
    (msg : WebSocketMessage) : (handleDocumentChange env st cid msg).threw = false := by
  unfold handleDocumentChange
  repeat' (first | split | dsimp only)

theorem handleDocumentChange_ops (env : Env) (st : ServerState) (cid : String)
    (msg : WebSocketMessage) : (handleDocumentChange env st cid msg).ops = [] := by
  unfold handleDocumentChange
  repeat' (first | split | dsimp only)

theorem handleCharacterChange_threw (env : Env) (st : ServerState) (cid : String)
    (msg : WebSocketMessage) : (handleCharacterChange env st cid msg).threw = false := by
  unfold handleCharacterChange
  repeat' (first | split | dsimp only)

theorem handleJoinDocument_threw (env : Env) (st : ServerState) (cid : String)
    (msg : WebSocketMessage) : (handleJoinDocument env st cid msg).threw = false := by
  unfold handleJoinDocument
  repeat' (first | split | dsimp only)

theorem handleUserPresence_threw (env : Env) (st : ServerState) (cid : String)
    (msg : WebSocketMessage) : (handleUserPresence env st cid msg).threw = false := by
  unfold handleUserPresence
  repeat' (first | split | dsimp only)

theorem authenticateClient_rooms (env : Env) (st : ServerState) (cid : String)
    (msg : WebSocketMessage) :
    (authenticateClient env st cid msg).2.documentRooms = st.documentRooms := by
  unfold authenticateClient
  repeat' (first | split | dsimp only)

theorem handleAuthentication_rooms (env : Env) (st : ServerState) (cid : String)
    (msg : WebSocketMessage) :
    (handleAuthentication env st cid msg).st.documentRooms = st.documentRooms := by
  unfold handleAuthentication
  split
  · rfl
  · dsimp only
    split
    · exact authenticateClient_rooms env st cid msg
    · exact authenticateClient_rooms env st cid msg

theorem handleAuthentication_ops (env : Env) (st : ServerState) (cid : String)
    (msg : WebSocketMessage) : (handleAuthentication env st cid msg).ops = [] := by
  unfold handleAuthentication
  repeat' (first | split | dsimp only)

theorem handleAuthentication_threw (env : Env) (st : ServerState) (cid : String)
    (msg : WebSocketMessage) : (handleAuthentication env st cid msg).threw = false := by
  unfold handleAuthentication
  repeat' (first | split | dsimp only)

/-- When an authenticated client sends a non-authenticate message, the
router dispatches to the per-type handler; when the handler does not
throw, its output is returned unchanged. -/
theorem handleMessage_docChange (env : Env) (st : ServerState) (cid : String)
    (msg : WebSocketMessage) (hm : msg.type = .documentChange)
    (hauth : isClientAuthenticated st cid = true) :
    handleMessage env st cid msg = handleDocumentChange env st cid msg := by
  unfold handleMessage
  rw [hm]
  rw [if_neg (by simp)]
  rw [if_neg (by simp [hauth])]
  dsimp only
  rw [if_neg (by rw [handleDocumentChange_threw]; simp)]

theorem handleMessage_unauth (env : Env) (st : ServerState) (cid : String)
    (msg : WebSocketMessage) (hm : msg.type ≠ .authenticate)
    (hauth : isClientAuthenticated st cid = false) :
    handleMessage env st cid msg =
      { st := st,
        sent := sendErrorTo env cid "Authentication required. Please send authenticate message first." } := by
  unfold handleMessage
  rw [if_neg hm]
  rw [if_pos (by simp [hauth])]

/-- C1 counterexample: the guest identity guest_a@example.com is reported
as viewer-only by the Permission Oracle (permission field), yet the
oracle grants hasAccess for the editor-level check, so the guest's
document-change is broadcast to the other room member c2 and no error is
sent, contradicting the claim that viewer-capped guests are denied. -/
theorem C1_counterexample :
    (checkDocumentPermission db0 "d1" "guest_a@example.com" PermLevel.editor).hasAccess = true ∧
    (checkDocumentPermission db0 "d1" "guest_a@example.com" PermLevel.editor).permission
      = PermLevel.viewer ∧
    (handleMessage envOk stGuest "cg" guestChangeMsg).sent
      = [("c2", OutMessage.documentChange (some "g1") (some "guest_a@example.com")
                  guestChangeMsg.data)] := by
  decide

/-- C2 counterexample: connection c1, a member of room d1, sends a
cursor-update and the resulting broadcast is delivered back to c1 itself
(the handler passes no excluded socket for cursor-update). -/
theorem C2_counterexample :
    ("c1", OutMessage.cursorUpdate (some "u1") (some "reg@x.com") (some "A") none
        (CursorOut.cur "p7")) ∈ (handleMessage envOk stTwo "c1" cursorMsg).sent := by
  decide

/-- C3 counterexample: the email guest_x@example.com.attacker.org does not
match the anchored pattern guest_star_example.com, yet the server
classifies it as a guest (substring test) and rejects its authentication
for lack of a share token, even though the registered validation path
(validateUser) would have accepted it. -/
theorem C3_counterexample :
    isGuestEmail "guest_x@example.com.attacker.org" = true ∧
    specGuestPattern "guest_x@example.com.attacker.org" = false ∧
    validateUser db0 "guest_x@example.com.attacker.org" = true ∧
    (handleMessage envOk stEmpty "c9" evilAuthMsg).sent
      = [("c9", OutMessage.error "Authentication failed")] := by
  decide

/-- C4 counterexample: on Alice joining d1 where Bob is present, the
trace is current-users, user-joined to Alice, user-joined broadcast to
Bob, session-created to Alice; the session-created caller-directed
message is sent after the broadcast to the other member, contradicting
the claimed order. -/
theorem C4_counterexample :
    (handleMessage envOk stJoin "c1" joinMsg).sent
      = [("c1", OutMessage.currentUsers
            [{ clientId := "c2", userEmail := "bob@x.com", userName := "B", userImage := none }]),
         ("c1", OutMessage.userJoined (some "u1") (some "reg@x.com") (some "A") none none "s9"),
         ("c2", OutMessage.userJoined (some "u1") (some "reg@x.com") (some "A") none none "s9"),
         ("c1", OutMessage.sessionCreated "s9")] ∧
    sessionCreatedAfterOther "c1" (handleMessage envOk stJoin "c1" joinMsg).sent = true := by
  decide

/-- C5 counterexample: when the Session Store rejects the activity update
for Alice's cursor-update, the error is surfaced to Alice as Internal
server error and the cursor-update broadcast to Bob does not occur,
contradicting the claimed swallow-and-broadcast behavior. -/
theorem C5_counterexample :
    (handleMessage envSessFail stTwo "c1" cursorMsg).sent
      = [("c1", OutMessage.error "Internal server error")] := by
  decide

/-- C8 counterexample: Alice leaves d1 twice; each leave-document
broadcasts user-left to the remaining member Bob, so Bob receives the
user-left for Alice twice, contradicting the no-double-broadcast claim. -/
theorem C8_counterexample :
    (handleMessage envOk stTwo "c1" leaveMsg).sent = [("c2", leftOfLeaveMsg)] ∧
    (handleMessage envOk (handleMessage envOk stTwo "c1" leaveMsg).st "c1" leaveMsg).sent
      = [("c2", leftOfLeaveMsg)] := by
  decide

/-- C6: while a connection is unauthenticated (no client record or
authenticated flag false), every inbound message whose type is not
authenticate is answered with exactly one error message to that
connection, and the clients map, the documentRooms map and the session
store are untouched. -/
theorem C6_auth_gating (env : Env) (st : ServerState) (cid : String)
    (msg : WebSocketMessage) (hm : msg.type ≠ .authenticate)
    (hauth : isClientAuthenticated st cid = false)
    (hopen : env.sockOpen cid = true) :
    (handleMessage env st cid msg).sent
      = [(cid, OutMessage.error "Authentication required. Please send authenticate message first.")] ∧
    (handleMessage env st cid msg).st = st ∧
    (handleMessage env st cid msg).ops = [] := by
  rw [handleMessage_unauth env st cid msg hm hauth]
  refine ⟨?_, rfl, rfl⟩
  simp [sendErrorTo, sendToClient, hopen]

/-- C6 witness: a join-document message on a connection with no client
record yields exactly the one authentication-required error. -/
theorem C6_witness :
    (MsgType.joinDocument ≠ MsgType.authenticate) ∧
    isClientAuthenticated stEmpty "c0" = false ∧
    envOk.sockOpen "c0" = true ∧
    ((handleMessage envOk stEmpty "c0" { type := MsgType.joinDocument }).sent
      = [("c0", OutMessage.error "Authentication required. Please send authenticate message first.")] ∧
     (handleMessage envOk stEmpty "c0" { type := MsgType.joinDocument }).st = stEmpty ∧
     (handleMessage envOk stEmpty "c0" { type := MsgType.joinDocument }).ops = []) :=
  ⟨by decide, by decide, rfl,
   C6_auth_gating envOk stEmpty "c0" { type := MsgType.joinDocument } (by decide) (by decide) rfl⟩

/-- C1 (amended): when the Permission Oracle reports hasAccess false for
the editor-level check on a document-change from an authenticated
connection, that connection receives exactly one error message and no
other connection receives anything, the state is unchanged and no
session-store call is made.  (As the counterexample shows, guest
identities are not covered: the oracle grants them hasAccess even for
editor-level checks while labelling their permission viewer.) -/
theorem C1_denied_change_error_no_broadcast (env : Env) (st : ServerState)
    (cid : String) (msg : WebSocketMessage) (d e u : String)
    (hm : msg.type = .documentChange)
    (hreq : reqFields msg = some (d, e, u))
    (hperm : (checkDocumentPermission env.db d e .editor).hasAccess = false)
    (hauth : isClientAuthenticated st cid = true)
    (hopen : env.sockOpen cid = true) :
    (handleMessage env st cid msg).sent
      = [(cid, OutMessage.error "No edit permission for document")] ∧
    (handleMessage env st cid msg).st = st ∧
    (handleMessage env st cid msg).ops = [] := by
  rw [handleMessage_docChange env st cid msg hm hauth]
  unfold handleDocumentChange
  rw [hreq]
  dsimp only
  rw [if_pos (by rw [hperm]; rfl)]
  exact ⟨by simp [sendErrorTo, sendToClient, hopen], rfl, rfl⟩

/-- C1 witness: the viewer-only registered user on d1 sending a
document-change receives exactly the one permission error. -/
theorem C1_witness :
    viewerChangeMsg.type = MsgType.documentChange ∧
    reqFields viewerChangeMsg = some ("d1", "viewer@x.com", "u3") ∧
    (checkDocumentPermission envOk.db "d1" "viewer@x.com" PermLevel.editor).hasAccess = false ∧
    isClientAuthenticated stViewer "cv" = true ∧
    ((handleMessage envOk stViewer "cv" viewerChangeMsg).sent
      = [("cv", OutMessage.error "No edit permission for document")] ∧
     (handleMessage envOk stViewer "cv" viewerChangeMsg).st = stViewer ∧
     (handleMessage envOk stViewer "cv" viewerChangeMsg).ops = []) :=
  ⟨rfl, by decide, by decide, by decide,
   C1_denied_change_error_no_broadcast envOk stViewer "cv" viewerChangeMsg
     "d1" "viewer@x.com" "u3" rfl (by decide) (by decide) (by decide) rfl⟩

/-- C5 (amended): when the Session Store rejects the activity update
during a cursor-update from an authenticated connection holding a
session, the failure is surfaced to the client as an Internal server
error and no broadcast occurs; the update call is the only session-store
operation and the state is unchanged. -/
theorem C5_session_failure_surfaced (env : Env) (st : ServerState) (cid : String)
    (msg : WebSocketMessage) (cl : ConnectedClient) (s : String)
    (hm : msg.type = .cursorUpdate)
    (hcl : alGet st.clients cid = some cl)
    (hauth : cl.authenticated = true)
    (hsid : cl.sessionId = some s)
    (hfail : env.updateSessionRes s (cursorOf msg) = .error ())
    (hopen : env.sockOpen cid = true) :
    (handleMessage env st cid msg).sent = [(cid, OutMessage.error "Internal server error")] ∧
    (handleMessage env st cid msg).st = st ∧
    (handleMessage env st cid msg).ops = [SessOp.update s (cursorOf msg)] := by
  have hICA : isClientAuthenticated st cid = true := by
    unfold isClientAuthenticated
    rw [hcl]
    exact hauth
  have hcu : handleCursorUpdate env st cid msg
      = { st := st, ops := [SessOp.update s (cursorOf msg)], threw := true } := by
    unfold handleCursorUpdate
    rw [hcl]
    dsimp only
    rw [hsid]
    dsimp only
    rw [hfail]
    rfl
  unfold handleMessage
  rw [hm]
  rw [if_neg (by simp)]
  rw [if_neg (by simp [hICA])]
  dsimp only
  rw [hcu]
  refine ⟨?_, rfl, rfl⟩
  simp [sendErrorTo, sendToClient, hopen]

/-- C5 witness: Alice holds session s1 and the store rejects the update;
she receives only the Internal server error and Bob receives nothing. -/
theorem C5_witness :
    cursorMsg.type = MsgType.cursorUpdate ∧
    alGet stTwo.clients "c1" = some alice ∧
    alice.authenticated = true ∧
    alice.sessionId = some "s1" ∧
    envSessFail.updateSessionRes "s1" (cursorOf cursorMsg) = Except.error () ∧
    ((handleMessage envSessFail stTwo "c1" cursorMsg).sent
      = [("c1", OutMessage.error "Internal server error")] ∧
     (handleMessage envSessFail stTwo "c1" cursorMsg).st = stTwo ∧
     (handleMessage envSessFail stTwo "c1" cursorMsg).ops
      = [SessOp.update "s1" (cursorOf cursorMsg)]) :=
  ⟨rfl, by decide, rfl, rfl, rfl,
   C5_session_failure_surfaced envSessFail stTwo "c1" cursorMsg alice "s1"
     rfl (by decide) rfl rfl rfl rfl⟩

theorem mem_sendErrorTo {env : Env} {cid r : String} {m : OutMessage} {s : String}
    (h : (r, m) ∈ sendErrorTo env cid s) : r = cid ∧ m = OutMessage.error s :=
  mem_sendToClient h

/-- Every message the document-change handler delivers to the sender
itself is an error message: the success broadcasts exclude the sender. -/
theorem docChange_to_sender_is_error (env : Env) (st : ServerState) (cid : String)
    (msg : WebSocketMessage) (m : OutMessage)
    (hmem : (cid, m) ∈ (handleDocumentChange env st cid msg).sent) :
    ∃ s2, m = OutMessage.error s2 := by
  unfold handleDocumentChange at hmem
  cases hr : reqFields msg with
  | none =>
      rw [hr] at hmem
      dsimp only at hmem
      exact ⟨_, (mem_sendErrorTo hmem).2⟩
  | some t =>
      obtain ⟨d, e, u⟩ := t
      rw [hr] at hmem
      dsimp only at hmem
      by_cases hp : (!(checkDocumentPermission env.db d e PermLevel.editor).hasAccess) = true
      · rw [if_pos hp] at hmem
        exact ⟨_, (mem_sendErrorTo hmem).2⟩
      · rw [if_neg hp] at hmem
        by_cases hs : isSyncRequest msg.data = true
        · rw [if_pos hs] at hmem
          exact (broadcast_not_excluded hmem).elim
        · rw [if_neg hs] at hmem
          exact (broadcast_not_excluded hmem).elim

/-- When the cursor-update session bookkeeping cannot throw (no session
or a succeeding store) and a truthy documentId is present, the handler
broadcasts to the room without excluding any connection. -/
theorem cursor_no_throw (env : Env) (st : ServerState) (cid : String)
    (msg : WebSocketMessage) (cl : ConnectedClient)
    (hcl : alGet st.clients cid = some cl)
    (hnofail : ∀ s, cl.sessionId = some s → env.updateSessionRes s (cursorOf msg) = Except.ok ())
    (d : String) (hdoc : msg.documentId = some d) (hd : d ≠ "") :
    (handleCursorUpdate env st cid msg).sent
      = broadcastToDocument env st d
          (.cursorUpdate msg.userId msg.userEmail msg.userName msg.userImage (cursorOutOf msg.data))
          none ∧
    (handleCursorUpdate env st cid msg).threw = false := by
  unfold handleCursorUpdate
  cases hsid : cl.sessionId with
  | none =>
      rw [hcl]
      dsimp only
      rw [hsid]
      dsimp only
      rw [hdoc]
      constructor <;> simp [optTruthy, hd, truthyOr_some hd]
  | some s =>
      rw [hcl]
      dsimp only
      rw [hsid]
      dsimp only
      rw [hnofail s hsid]
      dsimp only
      rw [hdoc]
      constructor <;> simp [optTruthy, hd, truthyOr_some hd]

/-- C2 (amended): document-change fan-out always excludes the sender (the
sender can only ever receive error messages from its own document-change
handling), but cursor-update fan-out does not: an open room member that
sends a cursor-update receives its own broadcast back. -/
theorem C2_exclusion_amended :
    (∀ (env : Env) (st : ServerState) (cid : String) (msg : WebSocketMessage) (m : OutMessage),
      msg.type = .documentChange →
      (cid, m) ∈ (handleMessage env st cid msg).sent →
      ∃ s2, m = OutMessage.error s2) ∧
    (∀ (env : Env) (st : ServerState) (cid : String) (msg : WebSocketMessage)
        (d : String) (cl : ConnectedClient),
      msg.type = .cursorUpdate →
      alGet st.clients cid = some cl →
      cl.authenticated = true →
      (∀ s, cl.sessionId = some s → env.updateSessionRes s (cursorOf msg) = Except.ok ()) →
      msg.documentId = some d → d ≠ "" →
      cid ∈ roomMembers st d →
      env.sockOpen cid = true →
      (cid, OutMessage.cursorUpdate msg.userId msg.userEmail msg.userName msg.userImage
        (cursorOutOf msg.data)) ∈ (handleMessage env st cid msg).sent) := by
  constructor
  · intro env st cid msg m hm hmem
    by_cases hauth : isClientAuthenticated st cid = true
    · rw [handleMessage_docChange env st cid msg hm hauth] at hmem
      exact docChange_to_sender_is_error env st cid msg m hmem
    · rw [Bool.not_eq_true] at hauth
      rw [handleMessage_unauth env st cid msg (by rw [hm]; simp) hauth] at hmem
      exact ⟨_, (mem_sendErrorTo hmem).2⟩
  · intro env st cid msg d cl hm hcl hauth hnofail hdoc hd hmemr hopen
    have hICA : isClientAuthenticated st cid = true := by
      unfold isClientAuthenticated
      rw [hcl]
      exact hauth
    obtain ⟨hsent, hthrew⟩ := cursor_no_throw env st cid msg cl hcl hnofail d hdoc hd
    unfold handleMessage
    rw [hm]
    rw [if_neg (by simp)]
    rw [if_neg (by simp [hICA])]
    dsimp only
    rw [if_neg (by rw [hthrew]; simp)]
    rw [hsent]
    exact broadcast_mem_of hmemr (by rw [hcl]; rfl) hopen (by simp)

/-- C2 witness: the first part applied to the viewer's denied
document-change (the sender-directed message is an error), the second to
Alice's cursor-update which she receives back herself. -/
theorem C2_witness :
    (∃ s2, OutMessage.error "No edit permission for document" = OutMessage.error s2) ∧
    ("c1", OutMessage.cursorUpdate (some "u1") (some "reg@x.com") (some "A") none
        (CursorOut.cur "p7")) ∈ (handleMessage envOk stTwo "c1" cursorMsg).sent :=
  ⟨C2_exclusion_amended.1 envOk stViewer "cv" viewerChangeMsg
      (OutMessage.error "No edit permission for document") rfl (by decide),
   C2_exclusion_amended.2 envOk stTwo "c1" cursorMsg "d1" alice rfl (by decide) rfl
      (fun s hs => rfl) rfl (by decide) (by decide) rfl⟩

/-- C3 (amended): the guest classification actually used by
authentication is the substring test (contains guest_ and contains the
example.com marker).  Every email matching the anchored pattern of the
spec is classified guest, but not conversely; a non-guest-classified
email takes the registered validation path (the outcome is exactly
validateUser), and a guest-classified email without a truthy share token
always fails authentication regardless of registered validity. -/
theorem C3_classification_amended :
    (∀ e, specGuestPattern e = true → isGuestEmail e = true) ∧
    (∀ (env : Env) (st : ServerState) (cid : String) (msg : WebSocketMessage) (e : String),
      msg.userEmail = some e → e ≠ "" → optTruthy msg.userId = true →
      isGuestEmail e = false →
      (authenticateClient env st cid msg).1 = validateUser env.db e) ∧
    (∀ (env : Env) (st : ServerState) (cid : String) (msg : WebSocketMessage) (e : String),
      msg.userEmail = some e → isGuestEmail e = true →
      optTruthy msg.shareToken = false →
      (authenticateClient env st cid msg).1 = false) := by
  refine ⟨?_, ?_, ?_⟩
  · intro e h
    unfold specGuestPattern at h
    rw [Bool.and_eq_true] at h
    unfold isGuestEmail
    rw [Bool.and_eq_true]
    exact ⟨includes_of_starts _ _ h.1, includes_of_ends _ _ h.2⟩
  · intro env st cid msg e hemail he huid hguest
    unfold authenticateClient
    rw [hemail]
    have he2 : optTruthy (some e) = true := by simp [optTruthy, he]
    rw [if_neg (by simp [he2, huid])]
    dsimp only
    rw [truthyOr_some he]
    rw [if_neg (by rw [hguest]; simp)]
    cases hv : validateUser env.db e
    · simp
    · simp
  · intro env st cid msg e hemail hguest htok
    unfold authenticateClient
    by_cases hg : (!(optTruthy msg.userEmail) || !(optTruthy msg.userId)) = true
    · rw [if_pos hg]
    · rw [if_neg hg]
      dsimp only
      simp only [Bool.or_eq_true, Bool.not_eq_true'] at hg
      push_neg at hg
      have hemailT : optTruthy msg.userEmail = true := Bool.ne_false_iff.mp hg.1
      have he : e ≠ "" := by
        rw [hemail] at hemailT
        simpa [optTruthy] using hemailT
      rw [hemail, truthyOr_some he]
      rw [if_pos (by rw [hguest])]
      rw [if_pos (by simp [htok])]

/-- C3 witness: the canonical guest email satisfies both the pattern and
the classification; Alice's re-authentication outcome equals validateUser
on her email; the crafted non-anchored guest-marked email without a token
fails authentication. -/
theorem C3_witness :
    isGuestEmail "guest_a@example.com" = true ∧
    (authenticateClient envOk stTwo "c1" reauthMsg).1 = validateUser envOk.db "reg@x.com" ∧
    (authenticateClient envOk stEmpty "c9" evilAuthMsg).1 = false :=
  ⟨C3_classification_amended.1 "guest_a@example.com" (by decide),
   C3_classification_amended.2.1 envOk stTwo "c1" reauthMsg "reg@x.com" rfl (by decide)
     rfl (by decide),
   C3_classification_amended.2.2 envOk stEmpty "c9" evilAuthMsg
     "guest_x@example.com.attacker.org" rfl (by decide) rfl⟩

theorem handleMessage_join (env : Env) (st : ServerState) (cid : String)
    (msg : WebSocketMessage) (hm : msg.type = .joinDocument)
    (hauth : isClientAuthenticated st cid = true) :
    handleMessage env st cid msg = handleJoinDocument env st cid msg := by
  unfold handleMessage
  rw [hm]
  rw [if_neg (by simp)]
  rw [if_neg (by simp [hauth])]
  dsimp only
  rw [if_neg (by rw [handleJoinDocument_threw]; simp)]

theorem exists_decomp {α : Type} (P Q : α → Prop) (s1 s3 : List α) (x y : α)
    (h1 : ∀ p ∈ s1, P p) (h3 : ∀ p ∈ s3, Q p) :
    ∃ pre bc, s1 ++ [x] ++ s3 ++ [y] = pre ++ [x] ++ bc ++ [y] ∧
      (∀ p ∈ pre, P p) ∧ (∀ p ∈ bc, Q p) :=
  ⟨s1, s3, rfl, h1, h3⟩

/-- C4 (amended): on a successful join, the trace decomposes as
caller-directed messages, then the user-joined confirmation to the
caller, then the user-joined broadcast to other connections only, then
the session-created message to the caller.  Hence the caller receives
user-joined before session-created and before the broadcast, but
session-created is sent after the broadcast to the other room members,
not before it. -/
theorem C4_join_order_amended (env : Env) (st : ServerState) (cid : String)
    (msg : WebSocketMessage) (d e u : String) (client : ConnectedClient) (sid : String)
    (hm : msg.type = .joinDocument)
    (hauth : isClientAuthenticated st cid = true)
    (hreq : reqFields msg = some (d, e, u))
    (hperm : (checkDocumentPermission env.db d e .viewer).hasAccess = true)
    (hcl : alGet st.clients cid = some client)
    (hsess : env.createSessionRes d u e msg.userName = Except.ok sid)
    (hopen : env.sockOpen cid = true) :
    ∃ pre bc,
      (handleMessage env st cid msg).sent
        = pre ++ [(cid, OutMessage.userJoined msg.userId msg.userEmail msg.userName
                    msg.userImage msg.shareToken sid)]
            ++ bc ++ [(cid, OutMessage.sessionCreated sid)] ∧
      (∀ p ∈ pre, p.1 = cid) ∧ (∀ p ∈ bc, p.1 ≠ cid) := by
  rw [handleMessage_join env st cid msg hm hauth]
  unfold handleJoinDocument
  rw [hreq]
  dsimp only
  rw [if_neg (by rw [hperm]; simp)]
  rw [hcl]
  dsimp only
  rw [hsess]
  dsimp only
  rw [show sendToClient env cid (OutMessage.userJoined msg.userId msg.userEmail msg.userName
        msg.userImage msg.shareToken sid)
      = [(cid, OutMessage.userJoined msg.userId msg.userEmail msg.userName
          msg.userImage msg.shareToken sid)] from by simp [sendToClient, hopen]]
  rw [show sendToClient env cid (OutMessage.sessionCreated sid)
      = [(cid, OutMessage.sessionCreated sid)] from by simp [sendToClient, hopen]]
  apply exists_decomp
  · intro p hp
    split at hp
    · obtain ⟨r, m⟩ := p
      exact (mem_sendToClient hp).1
    · cases hp
  · intro p hp
    obtain ⟨r, m⟩ := p
    have h := (mem_broadcast hp).2.2.2.2
    intro heq
    exact h (congrArg some heq)

/-- C4 witness: Alice joining d1 with Bob present; her user-joined
precedes the broadcast-only segment and session-created closes the
trace. -/
theorem C4_witness :
    joinMsg.type = MsgType.joinDocument ∧
    reqFields joinMsg = some ("d1", "reg@x.com", "u1") ∧
    (∃ pre bc,
      (handleMessage envOk stJoin "c1" joinMsg).sent
        = pre ++ [("c1", OutMessage.userJoined (some "u1") (some "reg@x.com") (some "A")
                    none none "s9")]
            ++ bc ++ [("c1", OutMessage.sessionCreated "s9")] ∧
      (∀ p ∈ pre, p.1 = "c1") ∧ (∀ p ∈ bc, p.1 ≠ "c1")) :=
  ⟨rfl, by decide,
   C4_join_order_amended envOk stJoin "c1" joinMsg "d1" "reg@x.com" "u1" aliceFresh "s9"
     rfl (by decide) (by decide) (by decide) (by decide) rfl rfl⟩

/-- C8 (amended): disconnect cleanup is idempotent and never throws: a
second disconnect for the same connection id finds no client record, so
it sends nothing, changes nothing and performs no session-store call.
(Leave-document cleanup, by contrast, re-broadcasts user-left on every
call, as the counterexample shows.) -/
theorem C8_disconnect_idempotent (env : Env) (st : ServerState) (cid : String) :
    (handleClientDisconnect env (handleClientDisconnect env st cid).st cid).sent = [] ∧
    (handleClientDisconnect env (handleClientDisconnect env st cid).st cid).st
      = (handleClientDisconnect env st cid).st ∧
    (handleClientDisconnect env (handleClientDisconnect env st cid).st cid).ops = [] ∧
    (handleClientDisconnect env st cid).threw = false ∧
    (handleClientDisconnect env (handleClientDisconnect env st cid).st cid).threw = false := by
  have hgone : alGet (handleClientDisconnect env st cid).st.clients cid = none := by
    unfold handleClientDisconnect
    cases hc : alGet st.clients cid with
    | none => exact hc
    | some client =>
        dsimp only
        rw [removeFromDocumentRoom_clients]
        exact alGet_alDel_self st.clients cid
  have hsecond : ∀ s1 : ServerState, alGet s1.clients cid = none →
      handleClientDisconnect env s1 cid = ({ st := s1 } : HandlerOut) := by
    intro s1 h1
    unfold handleClientDisconnect
    rw [h1]
  have hfirst : (handleClientDisconnect env st cid).threw = false := by
    unfold handleClientDisconnect
    cases alGet st.clients cid with
    | none => rfl
    | some client => rfl
  rw [hsecond (handleClientDisconnect env st cid).st hgone]
  exact ⟨rfl, rfl, rfl, hfirst, rfl⟩

/-- The fresh client record authenticateClient builds from an
authenticate message: sessionId unset, documentId defaulted to the empty
string when absent. -/
def freshRecordOf (msg : WebSocketMessage) : ConnectedClient :=
  { userId := truthyOr msg.userId "", userEmail := truthyOr msg.userEmail "",
    userName := truthyOr msg.userName "", userImage := msg.userImage,
    documentId := truthyOr msg.documentId "", sessionId := none,
    authenticated := true }

/-- The successful branch of authenticateClient stores exactly the fresh
record (sessionId unset, fields from the message) and leaves the rooms
untouched. -/
theorem authenticateClient_cases (env : Env) (st : ServerState) (cid : String)
    (msg : WebSocketMessage) :
    (authenticateClient env st cid msg) = (false, st) ∨
    (authenticateClient env st cid msg)
      = (true, { st with clients := alSet st.clients cid (freshRecordOf msg) }) := by
  unfold authenticateClient freshRecordOf
  repeat' (first | split | dsimp only)
  all_goals first | (left; rfl) | (right; rfl)

theorem authenticateClient_true_state (env : Env) (st : ServerState) (cid : String)
    (msg : WebSocketMessage)
    (hok : (authenticateClient env st cid msg).1 = true) :
    (authenticateClient env st cid msg).2
      = { st with clients := alSet st.clients cid (freshRecordOf msg) } := by
  rcases authenticateClient_cases env st cid msg with h | h
  · rw [h] at hok
    cases hok
  · rw [h]

/-- C10: re-authentication of an already-authenticated connection
overwrites its client record with a fresh one whose sessionId is unset
and whose documentId comes from the message (empty when absent), while
the documentRooms map is unchanged (room membership preserved) and no
session-store call is made (the prior session is never removed). -/
theorem C10_reauth_replaces_record (env : Env) (st : ServerState) (cid : String)
    (msg : WebSocketMessage)
    (hm : msg.type = .authenticate)
    (hemail : optTruthy msg.userEmail = true)
    (huid : optTruthy msg.userId = true)
    (hok : (authenticateClient env st cid msg).1 = true) :
    alGet (handleMessage env st cid msg).st.clients cid = some (freshRecordOf msg) ∧
    (handleMessage env st cid msg).st.documentRooms = st.documentRooms ∧
    (handleMessage env st cid msg).ops = [] := by
  unfold handleMessage
  rw [if_pos hm]
  unfold handleAuthentication
  rw [if_neg (by simp [hemail, huid])]
  dsimp only
  rw [if_pos hok]
  refine ⟨?_, ?_, rfl⟩
  · rw [authenticateClient_true_state env st cid msg hok]
    exact alGet_alSet_self _ _ _
  · rw [authenticateClient_true_state env st cid msg hok]

/-- C10 witness: Alice, joined to d1 and holding session s1,
re-authenticates naming d2; her record is replaced (sessionId gone,
documentId d2), the room membership is intact and no session op ran. -/
theorem C10_witness :
    reauthMsg.type = MsgType.authenticate ∧
    (authenticateClient envOk stTwo "c1" reauthMsg).1 = true ∧
    (alGet (handleMessage envOk stTwo "c1" reauthMsg).st.clients "c1"
        = some (freshRecordOf reauthMsg) ∧
     (handleMessage envOk stTwo "c1" reauthMsg).st.documentRooms = stTwo.documentRooms ∧
     (handleMessage envOk stTwo "c1" reauthMsg).ops = []) :=
  ⟨rfl, by decide,
   C10_reauth_replaces_record envOk stTwo "c1" reauthMsg rfl (by decide) (by decide) (by decide)⟩

/-- When the leave-document session bookkeeping cannot throw, the handler
removes the sender from the room and broadcasts a user-left built from
the message fields to the remaining members. -/
theorem leave_no_throw (env : Env) (st : ServerState) (cid : String)
    (msg : WebSocketMessage) (d : String)
    (hnofail : ∀ cl s, alGet st.clients cid = some cl → cl.sessionId = some s →
      env.removeSessionRes s = Except.ok ())
    (hdoc : msg.documentId = some d) (hd : d ≠ "") :
    (handleLeaveDocument env st cid msg).sent
      = broadcastToDocument env (removeFromDocumentRoom st d cid) d
          (.userLeft msg.userId msg.userEmail msg.userName msg.userImage) none ∧
    (handleLeaveDocument env st cid msg).st = removeFromDocumentRoom st d cid ∧
    (handleLeaveDocument env st cid msg).threw = false := by
  unfold handleLeaveDocument
  cases hc : alGet st.clients cid with
  | none =>
      dsimp only
      rw [hdoc]
      refine ⟨?_, ?_, ?_⟩ <;> simp [optTruthy, hd, truthyOr_some hd]
  | some cl =>
      cases hs : cl.sessionId with
      | none =>
          dsimp only
          rw [hs]
          dsimp only
          rw [hdoc]
          refine ⟨?_, ?_, ?_⟩ <;> simp [optTruthy, hd, truthyOr_some hd]
      | some s =>
          dsimp only
          rw [hs]
          dsimp only
          rw [hnofail cl s hc hs]
          dsimp only
          rw [hdoc]
          refine ⟨?_, ?_, ?_⟩ <;> simp [optTruthy, hd, truthyOr_some hd]

/-- C9: the user-left broadcast of leave-document copies userId,
userEmail, userName and userImage from the inbound message (not from the
stored client record), and it goes out to the room members even when the
leaving connection was never a member of that room. -/
theorem C9_leave_uses_message_fields (env : Env) (st : ServerState) (cid : String)
    (msg : WebSocketMessage) (d : String)
    (hm : msg.type = .leaveDocument)
    (hauth : isClientAuthenticated st cid = true)
    (hdoc : msg.documentId = some d) (hd : d ≠ "")
    (hnofail : ∀ cl s, alGet st.clients cid = some cl → cl.sessionId = some s →
      env.removeSessionRes s = Except.ok ()) :
    (∀ r m, (r, m) ∈ (handleMessage env st cid msg).sent →
      m = OutMessage.userLeft msg.userId msg.userEmail msg.userName msg.userImage) ∧
    (cid ∉ roomMembers st d →
      ∀ c, c ∈ roomMembers st d → (alGet st.clients c).isSome → env.sockOpen c = true →
        (c, OutMessage.userLeft msg.userId msg.userEmail msg.userName msg.userImage)
          ∈ (handleMessage env st cid msg).sent) := by
  obtain ⟨hsent, hst, hthrew⟩ := leave_no_throw env st cid msg d hnofail hdoc hd
  have hred : handleMessage env st cid msg = handleLeaveDocument env st cid msg := by
    unfold handleMessage
    rw [hm]
    rw [if_neg (by simp)]
    rw [if_neg (by simp [hauth])]
    dsimp only
    rw [if_neg (by rw [hthrew]; simp)]
  rw [hred, hsent]
  constructor
  · intro r m hmem
    exact (mem_broadcast hmem).1
  · intro hnotmem c hcmem hcsome hcopen
    apply broadcast_mem_of ?_ ?_ hcopen (by simp)
    · show c ∈ roomMembers (removeFromDocumentRoom st d cid) d
      unfold removeFromDocumentRoom
      cases hroom : alGet st.documentRooms d with
      | none =>
          rw [roomMembers, hroom] at hcmem
          simp at hcmem
      | some room =>
          rw [roomMembers, hroom] at hcmem
          simp only [Option.getD_some] at hcmem
          have hfix : room.filter (fun x => decide (x ≠ cid)) = room := by
            apply List.filter_eq_self.mpr
            intro a ha
            have hane : a ≠ cid := by
              intro hEq
              apply hnotmem
              rw [roomMembers, hroom]
              simp only [Option.getD_some]
              rw [← hEq]
              exact ha
            simpa using hane
          dsimp only
          rw [hfix]
          rw [if_neg (by
            intro hEmp
            rw [List.isEmpty_iff] at hEmp
            rw [hEmp] at hcmem
            simp at hcmem)]
          rw [roomMembers]
          dsimp only
          rw [alGet_alSet_self]
          simpa using hcmem
    · show (alGet (removeFromDocumentRoom st d cid).clients c).isSome
      rw [removeFromDocumentRoom_clients]
      exact hcsome

/-- C9 witness: Alice is authenticated but not a member of room d1; her
leave-document for d1 still delivers a user-left built from the message
fields to the member Bob. -/
theorem C9_witness :
    leaveMsg.type = MsgType.leaveDocument ∧
    "c1" ∉ roomMembers stJoin "d1" ∧
    ("c2", OutMessage.userLeft (some "u1") (some "reg@x.com") (some "A") none)
      ∈ (handleMessage envOk stJoin "c1" leaveMsg).sent :=
  ⟨rfl, by decide,
   (C9_leave_uses_message_fields envOk stJoin "c1" leaveMsg "d1" rfl (by decide) rfl
       (by decide) (fun cl s hcl hs => rfl)).2
     (by decide) "c2" (by decide) (by decide) rfl⟩

theorem handleCharacterChange_st (env : Env) (st : ServerState) (cid : String)
    (msg : WebSocketMessage) : (handleCharacterChange env st cid msg).st = st := by
  unfold handleCharacterChange
  repeat' (first | split | dsimp only)

theorem handleCursorUpdate_st (env : Env) (st : ServerState) (cid : String)
    (msg : WebSocketMessage) : (handleCursorUpdate env st cid msg).st = st := by
  unfold handleCursorUpdate
  repeat' (first | split | dsimp only)

theorem handleUserPresence_st (env : Env) (st : ServerState) (cid : String)
    (msg : WebSocketMessage) : (handleUserPresence env st cid msg).st = st := by
  unfold handleUserPresence
  repeat' (first | split | dsimp only)

theorem roomsWF_handleAuthentication (env : Env) (st : ServerState) (cid : String)
    (msg : WebSocketMessage) (h : roomsWF st.documentRooms) :
    roomsWF (handleAuthentication env st cid msg).st.documentRooms := by
  unfold handleAuthentication
  split
  · exact h
  · dsimp only
    split
    · show roomsWF (authenticateClient env st cid msg).2.documentRooms
      rw [authenticateClient_rooms]
      exact h
    · show roomsWF (authenticateClient env st cid msg).2.documentRooms
      rw [authenticateClient_rooms]
      exact h

theorem roomsWF_handleJoin (env : Env) (st : ServerState) (cid : String)
    (msg : WebSocketMessage) (h : roomsWF st.documentRooms) :
    roomsWF (handleJoinDocument env st cid msg).st.documentRooms := by
  unfold handleJoinDocument
  repeat' (first | split | dsimp only)
  all_goals first
    | exact h
    | exact roomsWF_addRoom h

theorem roomsWF_handleLeave (env : Env) (st : ServerState) (cid : String)
    (msg : WebSocketMessage) (h : roomsWF st.documentRooms) :
    roomsWF (handleLeaveDocument env st cid msg).st.documentRooms := by
  unfold handleLeaveDocument
  repeat' (first | split | dsimp only)
  all_goals first
    | exact h
    | exact roomsWF_removeRoom h

theorem roomsWF_handleClientDisconnect (env : Env) (st : ServerState) (cid : String)
    (h : roomsWF st.documentRooms) :
    roomsWF (handleClientDisconnect env st cid).st.documentRooms := by
  unfold handleClientDisconnect
  repeat' (first | split | dsimp only)
  all_goals first
    | exact h
    | exact roomsWF_removeRoom h

theorem roomsWF_handleMessage (env : Env) (st : ServerState) (cid : String)
    (msg : WebSocketMessage) (h : roomsWF st.documentRooms) :
    roomsWF (handleMessage env st cid msg).st.documentRooms := by
  unfold handleMessage
  by_cases ha : msg.type = .authenticate
  · rw [if_pos ha]
    exact roomsWF_handleAuthentication env st cid msg h
  · rw [if_neg ha]
    by_cases hb : isClientAuthenticated st cid = true
    · rw [if_neg (by simp [hb])]
      dsimp only
      have hr : ∀ r : HandlerOut, roomsWF r.st.documentRooms →
          roomsWF (if r.threw = true then
            { st := r.st, sent := r.sent ++ sendErrorTo env cid "Internal server error",
              ops := r.ops } else r).st.documentRooms := by
        intro r hrw
        split
        · exact hrw
        · exact hrw
      apply hr
      cases htype : msg.type
      all_goals first
        | exact roomsWF_handleJoin env st cid msg h
        | exact roomsWF_handleLeave env st cid msg h
        | (rw [handleDocumentChange_st]; exact h)
        | (rw [handleCharacterChange_st]; exact h)
        | (rw [handleCursorUpdate_st]; exact h)
        | (rw [handleUserPresence_st]; exact h)
        | exact h
    · rw [if_pos (by simp [hb])]
      exact h

/-- Removing a member from a room keeps only original members other than
the removed one. -/
theorem roomMembers_remove_subset {st : ServerState} {d c x : String}
    (hx : x ∈ roomMembers (removeFromDocumentRoom st d c) d) :
    x ∈ roomMembers st d ∧ x ≠ c := by
  unfold removeFromDocumentRoom at hx
  cases hroom : alGet st.documentRooms d with
  | none =>
      rw [hroom] at hx
      dsimp only at hx
      rw [roomMembers, hroom] at hx
      simp at hx
  | some room =>
      rw [hroom] at hx
      dsimp only at hx
      by_cases he : (room.filter (fun y => decide (y ≠ c))).isEmpty = true
      · rw [if_pos he] at hx
        rw [roomMembers] at hx
        dsimp only at hx
        rw [alGet_alDel_self] at hx
        simp at hx
      · rw [if_neg he] at hx
        rw [roomMembers] at hx
        dsimp only at hx
        rw [alGet_alSet_self] at hx
        simp only [Option.getD_some] at hx
        rw [List.mem_filter] at hx
        obtain ⟨hmem2, hdec⟩ := hx
        refine ⟨?_, by simpa using hdec⟩
        rw [roomMembers, hroom]
        simpa using hmem2

/-- Folding member removals over a list covering all of a room's members
leaves no Room Directory entry for that document. -/
theorem removeAll_no_entry (M : List String) : ∀ (st : ServerState) (d : String),
    roomsWF st.documentRooms → (∀ c ∈ roomMembers st d, c ∈ M) →
    alGet (M.foldl (fun s c => removeFromDocumentRoom s d c) st).documentRooms d = none := by
  induction M with
  | nil =>
      intro st d hwf hsub
      simp only [List.foldl_nil]
      cases hroom : alGet st.documentRooms d with
      | none => rfl
      | some room =>
          have hne := hwf d room hroom
          have hroomNil : room = [] := by
            cases room with
            | nil => rfl
            | cons a as =>
                have ha : a ∈ roomMembers st d := by
                  rw [roomMembers, hroom]
                  simp
                exact absurd (hsub a ha) (by simp)
          exact absurd hroomNil hne
  | cons m M ih =>
      intro st d hwf hsub
      simp only [List.foldl_cons]
      apply ih
      · exact roomsWF_removeRoom hwf
      · intro c hc
        obtain ⟨hc1, hc2⟩ := roomMembers_remove_subset hc
        rcases List.mem_cons.mp (hsub c hc1) with hcm | hcm
        · exact absurd hcm hc2
        · exact hcm

/-- C7: the Room Directory never holds an empty room: every message
handling step and every disconnect cleanup preserves the invariant, and
after removing all of a room's members (in any order, possibly with
repeats or strangers in the list) the directory holds no entry for that
document. -/
theorem C7_room_lifecycle :
    (∀ (env : Env) (st : ServerState) (cid : String) (msg : WebSocketMessage),
      roomsWF st.documentRooms → roomsWF (handleMessage env st cid msg).st.documentRooms) ∧
    (∀ (env : Env) (st : ServerState) (cid : String),
      roomsWF st.documentRooms → roomsWF (handleClientDisconnect env st cid).st.documentRooms) ∧
    (∀ (st : ServerState) (d : String) (M : List String),
      roomsWF st.documentRooms → (∀ c ∈ roomMembers st d, c ∈ M) →
      alGet (M.foldl (fun s c => removeFromDocumentRoom s d c) st).documentRooms d = none) :=
  ⟨fun env st cid msg h => roomsWF_handleMessage env st cid msg h,
   fun env st cid h => roomsWF_handleClientDisconnect env st cid h,
   fun st d M hwf hsub => removeAll_no_entry M st d hwf hsub⟩

/-- C7 witness: the invariant holds after Alice joins d1 from the
two-client state, after a disconnect, and removing both members of d1
from stTwo leaves no entry for d1. -/
theorem C7_witness :
    roomsWF (handleMessage envOk stJoin "c1" joinMsg).st.documentRooms ∧
    roomsWF (handleClientDisconnect envOk stTwo "c1").st.documentRooms ∧
    alGet ((["c1", "c2"].foldl (fun s c => removeFromDocumentRoom s "d1" c) stTwo)).documentRooms
      "d1" = none := by
  have hwfJoin : roomsWF stJoin.documentRooms := by
    intro d room h
    simp only [stJoin] at h
    simp only [alGet] at h
    split at h
    · injection h with h2
      subst h2
      simp
    · cases h
  have hwfTwo : roomsWF stTwo.documentRooms := by
    intro d room h
    simp only [stTwo] at h
    simp only [alGet] at h
    split at h
    · injection h with h2
      subst h2
      simp
    · cases h
  exact ⟨C7_room_lifecycle.1 envOk stJoin "c1" joinMsg hwfJoin,
    C7_room_lifecycle.2.1 envOk stTwo "c1" hwfTwo,
    C7_room_lifecycle.2.2 stTwo "d1" ["c1", "c2"] hwfTwo (by decide)⟩

end WsServer
